import Mathlib

/-!
Shallow embedding of the Web Log Analytics Dashboard (src/app.py): the record
store, the filter engine (filter_dataframe), the aggregation functions used by
the update callbacks, and the credential / navigation logic.  Machine dates are
modelled at date granularity as Nat (encoded y*10000 + m*100 + d, whose Nat
order coincides with calendar order), hours as Fin 24 (pandas dt.hour is always
0..23), and a timestamp that failed to parse (pd.to_datetime errors=coerce
giving NaT, app.py line 163) as Option.none.
-/

namespace WebLog

/-- An instant as the dataframe keeps it after load_data: its calendar date
(encoded y*10000 + m*100 + d) and its hour of day (dt.hour, always 0..23).
Finer granularity (minutes, seconds) is never consulted by the code under
verification, so it is not carried. -/
structure Timestamp where
  date : Nat
  hour : Fin 24
deriving DecidableEq, Repr

/-- One row of the dataframe after load_data (app.py lines 129-203): the parsed
timestamp (none models NaT, the result of a value that failed to parse at line
163) and the four categorical columns.  The derived columns date and hour are
recomputed from the timestamp exactly as load_data derives them. -/
structure Record where
  timestamp : Option Timestamp
  country : String
  continent : String
  age_group : String
  request_type : String
deriving DecidableEq, Repr

/-- The hour column derived at load (app.py line 170): dt.hour of the
timestamp, NaN (none) for a NaT timestamp. -/
def Record.hourCol (r : Record) : Option Nat :=
  r.timestamp.map (fun t => t.hour.val)

/-- The date column as filter_dataframe reads it (app.py line 609 uses
timestamp.dt.date directly): the date of the timestamp, NaT (none) for NaT. -/
def Record.dateCol (r : Record) : Option Nat :=
  r.timestamp.map (fun t => t.date)

/-! ### datetime.strptime(s, "%Y-%m-%d") (app.py lines 603-606) -/

/-- Split a character list on the hyphen separator, keeping empty groups. -/
def splitOnDash : List Char → List (List Char)
  | [] => [[]]
  | c :: cs =>
    if c = '-' then [] :: splitOnDash cs
    else
      match splitOnDash cs with
      | [] => [[c]]
      | g :: gs => (c :: g) :: gs

/-- Numeric value of a digit string. -/
def digitsVal (cs : List Char) : Nat :=
  cs.foldl (fun n c => n * 10 + (c.toNat - 48)) 0

def isLeapYear (y : Nat) : Bool :=
  (y % 4 == 0 && y % 100 != 0) || y % 400 == 0

def daysInMonth (y m : Nat) : Nat :=
  if m = 2 then (if isLeapYear y then 29 else 28)
  else if m = 4 ∨ m = 6 ∨ m = 9 ∨ m = 11 then 30
  else 31

/-- Date encoding: y*10000 + m*100 + d.  For calendar dates (m ≤ 12, d ≤ 31)
the Nat order of this encoding is exactly the order of datetime.date. -/
def mkDate (y m d : Nat) : Nat := y * 10000 + m * 100 + d

/-- datetime.strptime(s, "%Y-%m-%d").date(): three hyphen-separated digit
groups (at most 4/2/2 digits as the directives match), a valid calendar date
with year at least MINYEAR = 1; none models the ValueError strptime raises on
any malformed input. -/
def parseDate (s : String) : Option Nat :=
  match splitOnDash s.toList with
  | [ys, ms, ds] =>
    if ys ≠ [] ∧ ys.length ≤ 4 ∧ ys.all Char.isDigit ∧
       ms ≠ [] ∧ ms.length ≤ 2 ∧ ms.all Char.isDigit ∧
       ds ≠ [] ∧ ds.length ≤ 2 ∧ ds.all Char.isDigit then
      if 1 ≤ digitsVal ys ∧ 1 ≤ digitsVal ms ∧ digitsVal ms ≤ 12 ∧
         1 ≤ digitsVal ds ∧ digitsVal ds ≤ daysInMonth (digitsVal ys) (digitsVal ms) then
        some (mkDate (digitsVal ys) (digitsVal ms) (digitsVal ds))
      else none
    else none
  | _ => none

/-! ### filter_dataframe (app.py lines 594-633) -/

/-- A date bound as the callbacks hand it to filter_dataframe: an ISO string
from the DatePickerRange, an already-converted datetime.date, or Python None
(whose comparison against a date raises TypeError). -/
inductive PyDateArg where
  | str (s : String)
  | date (d : Nat)
  | pyNone
deriving DecidableEq, Repr

/-- Resolving a bound inside the try block (app.py lines 603-606): a string is
parsed with strptime (none = the ValueError it raises), a date passes through,
None leads to the TypeError the later comparison raises (none as well).  A
none result means the except branch at line 628 runs. -/
def resolveDateArg : PyDateArg → Option Nat
  | .str s => parseDate s
  | .date d => some d
  | .pyNone => none

/-- The date mask of app.py lines 609-610: timestamp.dt.date inside the closed
interval [s, e].  A NaT timestamp compares False on both sides (pandas NaT
comparisons are always False), so such a row never passes. -/
def datePred (s e : Nat) (r : Record) : Bool :=
  match r.timestamp with
  | some t => decide (s ≤ t.date) && decide (t.date ≤ e)
  | none => false

/-- One categorical block of filter_dataframe (each of app.py lines 612-626):
skipped when the selection list is empty (Python truthiness of the dropdown
value), otherwise an isin filter on the given column. -/
def applySetFilter (field : Record → String) (sel : List String) (rows : List Record) :
    List Record :=
  if sel.isEmpty then rows else rows.filter (fun r => sel.contains (field r))

/-- filter_dataframe (app.py lines 594-633).  The df.copy() and the timestamp
re-coercion of lines 595-600 are identities here (the list embedding is
immutable and timestamps are already parsed at load).  If either bound fails
to resolve, the exception propagates to the except at line 628 and the
original records are returned unfiltered; otherwise the date mask is applied
first, then the four isin filters in source order. -/
def filter_dataframe (store : List Record)
    (continents countries age_groups request_types : List String)
    (start_date end_date : PyDateArg) : List Record :=
  match resolveDateArg start_date, resolveDateArg end_date with
  | some s, some e =>
      applySetFilter (fun r => r.request_type) request_types
        (applySetFilter (fun r => r.age_group) age_groups
          (applySetFilter (fun r => r.country) countries
            (applySetFilter (fun r => r.continent) continents
              (store.filter (datePred s e)))))
  | _, _ => store

/-! ### update_metrics (app.py lines 649-662) -/

/-- The four figures of the metrics row. -/
structure Metrics where
  total : Nat
  demo : Nat
  job : Nat
  ai_assistant : Nat
deriving DecidableEq, Repr

/-- The counting core of update_metrics (app.py lines 652-658) on an already
filtered subset: the total row count and the count of each of the three named
request_type values.  The request_type column always exists after load_data,
so the else branch of line 659 is dead. -/
def metric_counts (rows : List Record) : Metrics :=
  { total := rows.length
    demo := (rows.filter (fun r => r.request_type = "demo")).length
    job := (rows.filter (fun r => r.request_type = "job")).length
    ai_assistant := (rows.filter (fun r => r.request_type = "ai_assistant")).length }

/-- update_metrics (app.py lines 649-662): filter, then count. -/
def update_metrics (store : List Record)
    (continents countries age_groups request_types : List String)
    (start_date end_date : PyDateArg) : Metrics :=
  metric_counts
    (filter_dataframe store continents countries age_groups request_types start_date end_date)

/-! ### Series.value_counts (app.py lines 747-748, 863-864) -/

/-- pandas Series.unique order: the distinct values in order of first
appearance. -/
def uniqueFirst : List String → List String
  | [] => []
  | a :: t => a :: uniqueFirst (t.filter (fun b => b ≠ a))
termination_by l => l.length
decreasing_by
  simp only [List.length_cons]
  exact Nat.lt_succ_of_le (List.length_filter_le _ _)

/-- Insert a (value, count) row into a list sorted by count descending,
after any row of count at least as large (earlier rows win ties). -/
def insertByCountDesc (p : String × Nat) : List (String × Nat) → List (String × Nat)
  | [] => [p]
  | q :: t => if p.2 ≤ q.2 then q :: insertByCountDesc p t else p :: q :: t

/-- Stable insertion sort by count descending. -/
def sortByCountDesc : List (String × Nat) → List (String × Nat)
  | [] => []
  | p :: t => insertByCountDesc p (sortByCountDesc t)

/-- Series.value_counts on a string column: one row per distinct value with
its number of occurrences, sorted by count descending. -/
def value_counts (l : List String) : List (String × Nat) :=
  sortByCountDesc ((uniqueFirst l).map (fun v => (v, l.count v)))

/-! ### update_age_group_chart (app.py lines 859-871) -/

/-- The fixed age-group ordering of app.py line 867. -/
def ageOrder : List String :=
  ["18-24", "25-34", "35-44", "45-54", "55-64", "65+"]

/-- The data frame the age-group chart plots (app.py lines 862-871):
value_counts over age_group, the age_group column converted to a Categorical
over ageOrder, then sort_values on it.  Values outside ageOrder become NaN in
the Categorical and sort last (na_position is last); the rows carrying the six
categories have pairwise distinct keys, so the (unstable) sort is extensionally
the selection of those rows in category order, followed by the NaN rows. -/
def update_age_group_counts (rows : List Record) : List (String × Nat) :=
  (ageOrder.filterMap
      (fun g => (value_counts (rows.map (fun r => r.age_group))).find? (fun p => p.1 = g))) ++
    (value_counts (rows.map (fun r => r.age_group))).filter
      (fun p => !(ageOrder.contains p.1))

/-! ### update_statistics_table (app.py lines 914-938) -/

/-- req_df.groupby('hour').size() (app.py line 923): the hour keys present in
the subset in ascending order, each with its row count.  NaN hours (NaT
timestamps) are dropped by groupby; defined hours are dt.hour values, hence in
range 24, so the ascending key list is range 24 restricted to present keys. -/
def hourlyCounts (rows : List Record) : List (Nat × Nat) :=
  ((List.range 24).filter
      (fun h => 0 < (rows.filterMap Record.hourCol).count h)).map
    (fun h => (h, (rows.filterMap Record.hourCol).count h))

/-- Series.mean (app.py line 926): NaN (none) on an empty series, otherwise
the arithmetic mean as an exact rational. -/
def sampleMean (counts : List Nat) : Option ℚ :=
  if counts.isEmpty then none
  else some ((counts.map (fun c => (c : ℚ))).sum / counts.length)

/-- Series.std (app.py line 927) with the pandas default ddof = 1: NaN (none)
whenever the series has fewer than two points.  The value recorded here is the
sample variance (the square of the reported standard deviation); it is defined
exactly when the standard deviation is, and is zero exactly when the standard
deviation is, so undefined-versus-zero distinctions transfer verbatim. -/
def sampleVariance (counts : List Nat) : Option ℚ :=
  if counts.length < 2 then none
  else
    some
      (((counts.map
            (fun c =>
              ((c : ℚ) - (counts.map (fun c2 => (c2 : ℚ))).sum / counts.length) ^ 2)).sum) /
        ((counts.length : ℚ) - 1))

/-- Series.idxmax (app.py line 930): the first row attaining the maximum
count (on the ascending hourly index this is the smallest such hour); none on
an empty frame, where idxmax raises and the handle_error wrapper takes over. -/
def firstMax : List (Nat × Nat) → Option (Nat × Nat)
  | [] => none
  | p :: rest =>
    match firstMax rest with
    | none => some p
    | some q => if p.2 < q.2 then some q else some p

/-- One row of the statistics table (app.py lines 932-938). -/
structure ReqTypeStats where
  total : Nat
  meanPerHour : Option ℚ
  varPerHour : Option ℚ
  peakHour : Option Nat
deriving DecidableEq, Repr

/-- The per-request_type body of the loop in update_statistics_table (app.py
lines 919-938): restrict to one request_type, bucket by hour, report count,
mean, deviation (recorded as sample variance, see sampleVariance) and peak
hour. -/
def reqTypeStats (rows : List Record) (t : String) : ReqTypeStats :=
  { total := (rows.filter (fun r => r.request_type = t)).length
    meanPerHour :=
      sampleMean ((hourlyCounts (rows.filter (fun r => r.request_type = t))).map Prod.snd)
    varPerHour :=
      sampleVariance ((hourlyCounts (rows.filter (fun r => r.request_type = t))).map Prod.snd)
    peakHour :=
      (firstMax (hourlyCounts (rows.filter (fun r => r.request_type = t)))).map Prod.fst }

/-- update_statistics_table (app.py lines 914-938) on an already filtered
subset: one stats row per distinct request_type in order of first appearance
(Series.unique, line 919). -/
def update_statistics_table (rows : List Record) : List (String × ReqTypeStats) :=
  (uniqueFirst (rows.map (fun r => r.request_type))).map (fun t => (t, reqTypeStats rows t))

/-! ### Credential store (app.py lines 52-95, 521-578) -/

/-- One entry of the users dict (app.py lines 72-75, 540-545): id, username,
password and an optional email (dict.get of a possibly absent key). -/
structure Account where
  id : String
  username : String
  password : String
  email : Option String
deriving DecidableEq, Repr

/-- The two built-in default accounts (app.py lines 72-75), used when the
pickle file is absent or unreadable.  The mapping is modelled as an
association list in dict insertion order with unique keys. -/
def defaultUsers : List (String × Account) :=
  [("admin", ⟨"admin", "admin", "password123", some "admin@example.com"⟩),
   ("user", ⟨"user", "user", "password124", some "user@example.com"⟩)]

/-- The outcome register_user reports through its error / success divs. -/
inductive RegisterOutcome where
  | fieldMissing
  | passwordMismatch
  | duplicateUsername
  | duplicateEmail
  | success
deriving DecidableEq, Repr

/-- register_user (app.py lines 521-557), its validation core: the checks in
source order - all fields required (line 524, Python truthiness, an empty
string models a missing field), password confirmation (line 527), username
already a key of USERS (line 531), email already on any account (lines
535-537) - and on success the new account appended to the mapping (lines
540-551).  save_users is modelled as succeeding (file I/O is outside the
embedding), so the success branch returns the persisted mapping. -/
def register_user (users : List (String × Account))
    (username email password confirm_password : String) :
    RegisterOutcome × List (String × Account) :=
  if username = "" ∨ email = "" ∨ password = "" ∨ confirm_password = "" then
    (.fieldMissing, users)
  else if password ≠ confirm_password then
    (.passwordMismatch, users)
  else if users.any (fun a => a.1 = username) then
    (.duplicateUsername, users)
  else if users.any (fun a => a.2.email = some email) then
    (.duplicateEmail, users)
  else
    (.success, users ++ [(username, ⟨username, username, password, some email⟩)])

/-- The login callback (app.py lines 568-578): with a click, redirect to
/dashboard exactly when the username is a key of USERS and the stored password
matches; otherwise stay on /login with an error.  none models dash.no_update
(no click yet). -/
def login (users : List (String × Account)) (nClicks : Nat)
    (username password : String) : Option String :=
  if 0 < nClicks then
    match List.lookup username users with
    | some a => if a.password = password then some "/dashboard" else some "/login"
    | none => some "/login"
  else none

/-! ### Page routing (app.py lines 472-482) -/

/-- The page contents display_page can return. -/
inductive PageContent where
  | loginPage
  | registerPage
  | dashboardPage
  | notFound
deriving DecidableEq, Repr

/-- display_page (app.py lines 472-482): pure routing on the URL pathname.
The /dashboard branch returns the dashboard layout with no authentication
check (the comment at lines 478-479 notes the check is skipped for demo
purposes). -/
def display_page (pathname : String) : PageContent :=
  if pathname = "/login" ∨ pathname = "/" then .loginPage
  else if pathname = "/register" then .registerPage
  else if pathname = "/dashboard" then .dashboardPage
  else .notFound

/-- What a session with the given authentication state observes when
navigating to a pathname: display_page receives only the URL (app.py line
472), so the session state cannot influence the content. -/
def renderForSession (_authenticated : Bool) (pathname : String) : PageContent :=
  display_page pathname

/-! ### Concrete stores used by scenario theorems and witnesses -/

/-- The three-record store of the spec scenario (section 8): dates 2023-01-01,
2023-01-02 and 2023-01-05.  The second record is given hour 23 so that its
inclusion witnesses date-granularity (not instant-granularity) comparison of
the end bound. -/
def s3r1 : Record :=
  ⟨some ⟨mkDate 2023 1 1, 0⟩, "United States", "North America", "25-34", "demo"⟩

def s3r2 : Record :=
  ⟨some ⟨mkDate 2023 1 2, 23⟩, "Canada", "North America", "35-44", "job"⟩

def s3r3 : Record :=
  ⟨some ⟨mkDate 2023 1 5, 0⟩, "United States", "North America", "25-34", "demo"⟩

def store3 : List Record := [s3r1, s3r2, s3r3]

/-- A two-record store exercising the country predicate together with an
unparseable date bound. -/
def cexUS : Record :=
  ⟨some ⟨mkDate 2023 1 2, 0⟩, "United States", "North America", "25-34", "demo"⟩

def cexCA : Record :=
  ⟨some ⟨mkDate 2023 1 3, 0⟩, "Canada", "North America", "35-44", "job"⟩

def cexStore : List Record := [cexUS, cexCA]

/-- A record whose timestamp failed to parse (NaT), and a store containing it. -/
def rNull : Record := ⟨none, "United States", "North America", "25-34", "demo"⟩

def storeNull : List Record := [s3r1, rNull]

/-- Two demo records in the same hour bucket and one job record, for the
single-bucket statistics scenario. -/
def w7a : Record := ⟨some ⟨mkDate 2023 1 1, 5⟩, "United States", "North America", "25-34", "demo"⟩

def w7b : Record := ⟨some ⟨mkDate 2023 1 1, 5⟩, "Canada", "North America", "35-44", "demo"⟩

def w7c : Record := ⟨some ⟨mkDate 2023 1 1, 3⟩, "United States", "North America", "25-34", "job"⟩

def rows7 : List Record := [w7a, w7b, w7c]

/-! ### Lemmas about the filter engine -/

theorem applySetFilter_sublist (field : Record → String) (sel : List String)
    (rows : List Record) : (applySetFilter field sel rows).Sublist rows := by
  unfold applySetFilter
  split
  · exact List.Sublist.refl rows
  · exact List.filter_sublist rows

theorem mem_of_mem_applySetFilter {field : Record → String} {sel : List String}
    {rows : List Record} {r : Record} (h : r ∈ applySetFilter field sel rows) : r ∈ rows :=
  (applySetFilter_sublist field sel rows).subset h

/-- On the non-throwing path, every record of the output passed the date mask. -/
theorem datePred_of_mem_filter_dataframe {store : List Record}
    {continents countries age_groups request_types : List String}
    {start_date end_date : PyDateArg} {s e : Nat}
    (hs : resolveDateArg start_date = some s) (he : resolveDateArg end_date = some e)
    {r : Record}
    (hr : r ∈ filter_dataframe store continents countries age_groups request_types
        start_date end_date) :
    datePred s e r = true := by
  unfold filter_dataframe at hr
  rw [hs, he] at hr
  exact (List.mem_filter.mp
    (mem_of_mem_applySetFilter (mem_of_mem_applySetFilter
      (mem_of_mem_applySetFilter (mem_of_mem_applySetFilter hr))))).2

/-! ### Claim theorems for the filter engine -/

/-- C1: for every record sequence and every filter criteria, the output of
filter_dataframe is a subsequence of the input records - same relative order,
no reordering, no duplication (List.Sublist states exactly this).  The input
list is never mutated: the embedding is pure and the source works on df.copy()
(app.py line 595), returning either a chain of filters of the copy or the
original object unchanged. -/
theorem filter_dataframe_sublist (store : List Record)
    (continents countries age_groups request_types : List String)
    (start_date end_date : PyDateArg) :
    (filter_dataframe store continents countries age_groups request_types
        start_date end_date).Sublist store := by
  unfold filter_dataframe
  cases resolveDateArg start_date with
  | none => exact List.Sublist.refl store
  | some s =>
    cases resolveDateArg end_date with
    | none => exact List.Sublist.refl store
    | some e =>
      exact ((((applySetFilter_sublist _ _ _).trans (applySetFilter_sublist _ _ _)).trans
        ((applySetFilter_sublist _ _ _).trans (applySetFilter_sublist _ _ _))).trans
        (List.filter_sublist store))

/-- C2: with every set criterion empty and a date range [s, e] covering the
full span of the store (every record date lies inside it), filter_dataframe
returns the full record store unchanged.  A store containing a NaT timestamp
has a record with no date, so no range covers it and the hypothesis excludes
such stores (see the C10 theorem for what happens to those records). -/
theorem filter_dataframe_identity (store : List Record) (s e : Nat)
    (hcover : ∀ r ∈ store, ∃ t, r.timestamp = some t ∧ s ≤ t.date ∧ t.date ≤ e) :
    filter_dataframe store [] [] [] [] (.date s) (.date e) = store := by
  have hfilter : store.filter (datePred s e) = store := by
    refine List.filter_eq_self.mpr (fun r hr => ?_)
    obtain ⟨t, ht, h1, h2⟩ := hcover r hr
    simp [datePred, ht, h1, h2]
  simp [filter_dataframe, resolveDateArg, applySetFilter, hfilter]

/-- C2 witness: the concrete three-record store, with the range covering its
span, comes back whole. -/
theorem filter_dataframe_identity_witness :
    filter_dataframe store3 [] [] [] []
      (.date (mkDate 2023 1 1)) (.date (mkDate 2023 1 5)) = store3 :=
  filter_dataframe_identity store3 (mkDate 2023 1 1) (mkDate 2023 1 5) (by decide)

/-- C3: the date predicate is a closed interval at date granularity.  On the
three-record scenario store, the range [2023-01-01, 2023-01-02] keeps exactly
the first two records (the second record sits at hour 23 of the end date, so
only date-granularity comparison includes it), and metric_counts on that
subset reports total 2, demo 1, job 1, ai_assistant 0. -/
theorem filter_dataframe_date_scenario :
    filter_dataframe store3 [] [] [] [] (.str "2023-01-01") (.str "2023-01-02")
        = [s3r1, s3r2]
    ∧ update_metrics store3 [] [] [] [] (.str "2023-01-01") (.str "2023-01-02")
        = ⟨2, 1, 1, 0⟩ := by
  decide

/-- C5 counterexample: the claim says an unparseable date bound is treated as
the corresponding extreme of the store while the other predicates are still
applied.  In the code the strptime ValueError aborts the whole try block
(app.py lines 603-606, 628-631): with countries restricted to United States
and an unparseable start bound, the Canada record survives, so the country
predicate was not applied - the whole unfiltered store is returned. -/
theorem filter_dataframe_bad_bound_cex :
    parseDate "oops" = none
    ∧ filter_dataframe cexStore [] ["United States"] [] []
        (.str "oops") (.date (mkDate 2023 1 31)) = cexStore
    ∧ cexCA ∈ cexStore
    ∧ cexCA.country ∉ (["United States"] : List String) := by
  decide

/-- C5 amended: if either date bound fails to resolve (an unparseable string,
or None whose comparison raises), the exception reaches the except branch of
filter_dataframe and the original records are returned untouched - fail-open,
with no predicate (date or categorical) applied at all. -/
theorem filter_dataframe_fail_open (store : List Record)
    (continents countries age_groups request_types : List String)
    (start_date end_date : PyDateArg)
    (hbad : resolveDateArg start_date = none ∨ resolveDateArg end_date = none) :
    filter_dataframe store continents countries age_groups request_types
      start_date end_date = store := by
  unfold filter_dataframe
  rcases hbad with h | h
  · rw [h]
  · rw [h]
    cases resolveDateArg start_date <;> rfl

/-- C5 amended witness: a malformed start bound returns the store unfiltered
even with a country restriction in force. -/
theorem filter_dataframe_fail_open_witness :
    filter_dataframe cexStore [] ["United States"] [] []
      (.str "not-a-date") (.date (mkDate 2023 1 31)) = cexStore :=
  filter_dataframe_fail_open cexStore [] ["United States"] [] []
    (.str "not-a-date") (.date (mkDate 2023 1 31)) (Or.inl (by decide))

/-- C10: on the non-throwing path (both bounds resolve), every record of the
output has a successfully parsed timestamp: a NaT timestamp makes both date
comparisons False (app.py lines 609-610), so the record is excluded for every
criteria; consequently a store containing a NaT record never comes back whole,
whatever the date range. -/
theorem filter_dataframe_excludes_nat (store : List Record)
    (continents countries age_groups request_types : List String)
    (start_date end_date : PyDateArg) (s e : Nat)
    (hs : resolveDateArg start_date = some s) (he : resolveDateArg end_date = some e) :
    (∀ r ∈ filter_dataframe store continents countries age_groups request_types
        start_date end_date, r.timestamp.isSome)
    ∧ (∀ r0 ∈ store, r0.timestamp = none →
        filter_dataframe store continents countries age_groups request_types
          start_date end_date ≠ store) := by
  have hsome : ∀ r ∈ filter_dataframe store continents countries age_groups request_types
      start_date end_date, r.timestamp.isSome := by
    intro r hr
    have hd := datePred_of_mem_filter_dataframe hs he hr
    unfold datePred at hd
    cases h : r.timestamp with
    | some t => simp [h]
    | none => rw [h] at hd; simp at hd
  refine ⟨hsome, fun r0 h0 hnone heq => ?_⟩
  have hmem : r0 ∈ filter_dataframe store continents countries age_groups request_types
      start_date end_date := by rw [heq]; exact h0
  have := hsome r0 hmem
  rw [hnone] at this
  simp at this

/-- C10 witness: the store with one NaT record keeps only the parsed record
and does not come back whole. -/
theorem filter_dataframe_excludes_nat_witness :
    (∀ r ∈ filter_dataframe storeNull [] [] [] []
        (.date (mkDate 2023 1 1)) (.date (mkDate 2023 1 5)), r.timestamp.isSome)
    ∧ (∀ r0 ∈ storeNull, r0.timestamp = none →
        filter_dataframe storeNull [] [] [] []
          (.date (mkDate 2023 1 1)) (.date (mkDate 2023 1 5)) ≠ storeNull) :=
  filter_dataframe_excludes_nat storeNull [] [] [] []
    (.date (mkDate 2023 1 1)) (.date (mkDate 2023 1 5))
    (mkDate 2023 1 1) (mkDate 2023 1 5) rfl rfl

/-! ### Lemmas about value_counts and uniqueFirst -/

theorem insertByCountDesc_perm (p : String × Nat) (l : List (String × Nat)) :
    (insertByCountDesc p l).Perm (p :: l) := by
  induction l with
  | nil => exact List.Perm.refl _
  | cons q t ih =>
    unfold insertByCountDesc
    split
    · exact (ih.cons q).trans (List.Perm.swap p q t)
    · exact List.Perm.refl _

theorem sortByCountDesc_perm (l : List (String × Nat)) : (sortByCountDesc l).Perm l := by
  induction l with
  | nil => exact List.Perm.refl _
  | cons p t ih => exact (insertByCountDesc_perm p (sortByCountDesc t)).trans (ih.cons p)

theorem value_counts_perm (l : List String) :
    (value_counts l).Perm ((uniqueFirst l).map (fun v => (v, l.count v))) :=
  sortByCountDesc_perm _

theorem mem_uniqueFirst (x : String) (l : List String) : x ∈ uniqueFirst l ↔ x ∈ l := by
  induction l using uniqueFirst.induct with
  | case1 => simp [uniqueFirst]
  | case2 a t ih =>
    rw [uniqueFirst]
    by_cases hx : x = a
    · subst hx; simp
    · simp only [List.mem_cons, ih, List.mem_filter]
      simp [hx]

theorem count_add_length_filter_ne (a : String) (t : List String) :
    t.count a + (t.filter (fun b => b ≠ a)).length = t.length := by
  induction t with
  | nil => rfl
  | cons b t ih =>
    by_cases hb : b = a
    · subst hb
      rw [List.count_cons_self, List.filter_cons, if_neg (by simp)]
      simp only [List.length_cons]
      omega
    · rw [List.count_cons_of_ne (fun h => hb h.symm)]
      simp only [List.filter_cons]
      rw [if_pos (by simp [hb])]
      simp only [List.length_cons]
      omega

theorem sum_map_count_uniqueFirst (l : List String) :
    ((uniqueFirst l).map (fun v => l.count v)).sum = l.length := by
  induction l using uniqueFirst.induct with
  | case1 => simp [uniqueFirst]
  | case2 a t ih =>
    rw [uniqueFirst, List.map_cons, List.sum_cons]
    have hcongr : ((uniqueFirst (t.filter (fun b => b ≠ a))).map
        (fun v => (a :: t).count v))
        = (uniqueFirst (t.filter (fun b => b ≠ a))).map
          (fun v => (t.filter (fun b => b ≠ a)).count v) := by
      refine List.map_congr_left (fun v hv => ?_)
      have hvmem : v ∈ t.filter (fun b => b ≠ a) :=
        (mem_uniqueFirst v _).mp hv
      have hvne : v ≠ a := by simpa using (List.mem_filter.mp hvmem).2
      rw [List.count_cons_of_ne hvne,
        List.count_filter (by simpa using hvne)]
    rw [hcongr, ih, List.count_cons_self, List.length_cons]
    have := count_add_length_filter_ne a t
    omega

/-! ### Claim theorem for metric consistency -/

theorem total_eq_sum_value_counts (rows : List Record) :
    (metric_counts rows).total
      = ((value_counts (rows.map (fun r => r.request_type))).map Prod.snd).sum := by
  rw [((value_counts_perm (rows.map (fun r => r.request_type))).map Prod.snd).sum_eq]
  rw [List.map_map]
  have hcomp : (Prod.snd ∘ fun v => (v, (rows.map (fun r => r.request_type)).count v))
      = fun v => (rows.map (fun r => r.request_type)).count v := rfl
  rw [hcomp, sum_map_count_uniqueFirst]
  simp [metric_counts]

theorem metric_counts_split (rows : List Record) :
    (metric_counts rows).total
      = (metric_counts rows).demo + (metric_counts rows).job
        + (metric_counts rows).ai_assistant
        + (rows.filter
            (fun r => r.request_type ∉ (["demo", "job", "ai_assistant"] : List String))).length := by
  simp only [metric_counts]
  induction rows with
  | nil => rfl
  | cons r t ih =>
    simp only [List.filter_cons, List.length_cons]
    by_cases h1 : r.request_type = "demo"
    · simp only [h1]
      rw [if_pos (by simp), if_neg (by simp), if_neg (by simp), if_neg (by simp)]
      simp only [List.length_cons]
      omega
    · by_cases h2 : r.request_type = "job"
      · simp only [h2]
        rw [if_neg (by simp), if_pos (by simp), if_neg (by simp), if_neg (by simp)]
        simp only [List.length_cons]
        omega
      · by_cases h3 : r.request_type = "ai_assistant"
        · simp only [h3]
          rw [if_neg (by simp), if_neg (by simp), if_pos (by simp), if_neg (by simp)]
          simp only [List.length_cons]
          omega
        · rw [if_neg (by simp [h1]), if_neg (by simp [h2]), if_neg (by simp [h3]),
            if_pos (by simp [h1, h2, h3])]
          simp only [List.length_cons]
          omega

/-- C4: on every filtered subset, the total of update_metrics equals the sum
of all per-value counts of value_counts over request_type on the same subset
(the pie chart's distribution, app.py lines 747-748); and request_type values
outside demo/job/ai_assistant are counted by none of the three named counters
yet still appear in the total: the total splits as demo + job + ai_assistant
plus the count of the remaining records. -/
theorem update_metrics_total_consistency (store : List Record)
    (continents countries age_groups request_types : List String)
    (start_date end_date : PyDateArg) :
    ((update_metrics store continents countries age_groups request_types
          start_date end_date).total
        = ((value_counts ((filter_dataframe store continents countries age_groups request_types
              start_date end_date).map (fun r => r.request_type))).map Prod.snd).sum)
    ∧ ((update_metrics store continents countries age_groups request_types
          start_date end_date).total
        = (update_metrics store continents countries age_groups request_types
            start_date end_date).demo
          + (update_metrics store continents countries age_groups request_types
              start_date end_date).job
          + (update_metrics store continents countries age_groups request_types
              start_date end_date).ai_assistant
          + ((filter_dataframe store continents countries age_groups request_types
              start_date end_date).filter
              (fun r => r.request_type ∉ (["demo", "job", "ai_assistant"] : List String))).length) :=
  ⟨total_eq_sum_value_counts _, metric_counts_split _⟩

/-! ### Lemmas about the age-group chart -/

theorem mapFst_filterMap_find (counts : List (String × Nat)) (gs : List String) :
    ((gs.filterMap (fun g => counts.find? (fun p => p.1 = g))).map Prod.fst)
      = gs.filter (fun g => (counts.find? (fun p => p.1 = g)).isSome) := by
  induction gs with
  | nil => rfl
  | cons g t ih =>
    rw [List.filterMap_cons, List.filter_cons]
    cases hf : counts.find? (fun p => decide (p.1 = g)) with
    | none => simpa [hf] using ih
    | some p =>
      have hp : p.1 = g := by simpa using List.find?_some hf
      rw [List.map_cons, ih, hp]
      simp [hf]

theorem mem_mapFst_value_counts (l : List String) (g : String) :
    g ∈ (value_counts l).map Prod.fst ↔ g ∈ l := by
  rw [((value_counts_perm l).map Prod.fst).mem_iff, List.map_map]
  have hcomp : (Prod.fst ∘ fun v => (v, l.count v)) = id := rfl
  rw [hcomp, List.map_id]
  exact mem_uniqueFirst g l

/-- C6: the age-group distribution keeps the fixed category order.  The
first components of the rows of update_age_group_counts, restricted to the
six defined groups, are exactly the defined groups present in the subset, in
the fixed order 18-24, 25-34, 35-44, 45-54, 55-64, 65+ and independent of the
order of the input records; a group absent from the subset is omitted, not
zero-filled.  With all six groups present the right-hand side is all of
ageOrder. -/
theorem update_age_group_counts_ordered (rows : List Record) :
    ((update_age_group_counts rows).map Prod.fst).filter (fun g => ageOrder.contains g)
      = ageOrder.filter (fun g => (rows.map (fun r => r.age_group)).contains g) := by
  unfold update_age_group_counts
  rw [List.map_append, List.filter_append]
  have hB : (((value_counts (rows.map (fun r => r.age_group))).filter
      (fun p => !(ageOrder.contains p.1))).map Prod.fst).filter
        (fun g => ageOrder.contains g) = [] := by
    rw [List.filter_eq_nil_iff]
    intro g hg
    obtain ⟨p, hp, rfl⟩ := List.mem_map.mp hg
    have hcon := (List.mem_filter.mp hp).2
    simp only [Bool.not_eq_true'] at hcon
    simpa using hcon
  rw [hB, List.append_nil, mapFst_filterMap_find, List.filter_filter]
  refine List.filter_congr (fun g hg => ?_)
  have hgIn : ageOrder.contains g = true := by simpa using hg
  rw [hgIn, Bool.true_and]
  by_cases hm : g ∈ rows.map (fun r => r.age_group)
  · have hmem : g ∈ (value_counts (rows.map (fun r => r.age_group))).map Prod.fst :=
      (mem_mapFst_value_counts _ g).mpr hm
    obtain ⟨p, hp, hfst⟩ := List.mem_map.mp hmem
    have hsome : ((value_counts (rows.map (fun r => r.age_group))).find?
        (fun p => p.1 = g)).isSome = true :=
      List.find?_isSome.mpr ⟨p, hp, by simp [hfst]⟩
    rw [hsome]
    simpa using hm
  · have hnone : ((value_counts (rows.map (fun r => r.age_group))).find?
        (fun p => p.1 = g)).isSome = false := by
      rw [Bool.eq_false_iff]
      intro hs
      obtain ⟨p, hp, hpg⟩ := List.find?_isSome.mp hs
      have hfst : p.1 = g := by simpa using hpg
      exact hm ((mem_mapFst_value_counts _ g).mp
        (List.mem_map.mpr ⟨p, hp, hfst⟩))
    rw [hnone]
    simpa using fun h => hm h

/-! ### Lemmas about the statistics table -/

theorem filterMap_hourCol_const {l : List Record} {h : Nat}
    (hall : ∀ r ∈ l, r.hourCol = some h) :
    l.filterMap Record.hourCol = List.replicate l.length h := by
  induction l with
  | nil => rfl
  | cons r t ih =>
    have hr := hall r (List.mem_cons_self r t)
    have ht := ih (fun x hx => hall x (List.mem_cons_of_mem r hx))
    simp [List.filterMap_cons, hr, ht, List.replicate_succ]

theorem range_filter_eq (m h : Nat) (hm : h < m) :
    (List.range m).filter (fun x => x = h) = [h] := by
  induction m with
  | zero => omega
  | succ m ih =>
    rw [List.range_succ, List.filter_append]
    by_cases hh : h = m
    · subst hh
      have hr : (List.range h).filter (fun x => x = h) = [] := by
        rw [List.filter_eq_nil_iff]
        intro a ha
        have := List.mem_range.mp ha
        simp
        omega
      simp [hr]
    · have hm2 : h < m := by omega
      rw [ih hm2]
      have hmh : ¬(m = h) := fun hc => hh hc.symm
      simp [hmh]

theorem filter_range_pos_count_replicate (n h : Nat) (hn : 0 < n) (hlt : h < 24) :
    (List.range 24).filter (fun x => 0 < (List.replicate n h).count x) = [h] := by
  have hcongr : ((List.range 24).filter (fun x => 0 < (List.replicate n h).count x))
      = (List.range 24).filter (fun x => x = h) := by
    refine List.filter_congr (fun x hx => ?_)
    rw [List.count_replicate]
    by_cases hxh : x = h
    · subst hxh; simp [hn]
    · simp [hxh, Ne.symm hxh]
  rw [hcongr]
  exact range_filter_eq 24 h hlt

theorem hourlyCounts_single {l : List Record} {h : Nat}
    (hne : l ≠ []) (hall : ∀ r ∈ l, r.hourCol = some h) :
    hourlyCounts l = [(h, l.length)] := by
  have hlt : h < 24 := by
    obtain ⟨r, hr⟩ := List.exists_mem_of_ne_nil l hne
    have hrh := hall r hr
    unfold Record.hourCol at hrh
    cases ht : r.timestamp with
    | none => rw [ht] at hrh; simp at hrh
    | some ts =>
      rw [ht] at hrh
      simp only [Option.map_some', Option.some.injEq] at hrh
      have hb := ts.hour.isLt
      omega
  unfold hourlyCounts
  rw [filterMap_hourCol_const hall,
    filter_range_pos_count_replicate l.length h (List.length_pos.mpr hne) hlt]
  simp [List.count_replicate]

theorem firstMax_spec (l : List (Nat × Nat)) :
    l.Pairwise (fun a b => a.1 < b.1) → ∀ p, firstMax l = some p →
      p ∈ l ∧ (∀ q ∈ l, q.2 ≤ p.2) ∧ (∀ q ∈ l, q.2 = p.2 → p.1 ≤ q.1) := by
  induction l with
  | nil =>
    intro _ p hp
    simp [firstMax] at hp
  | cons x rest ih =>
    intro hsort p hfm
    obtain ⟨hx, hrest2⟩ := List.pairwise_cons.mp hsort
    cases hrestCase : firstMax rest with
    | none =>
      simp only [firstMax, hrestCase, Option.some.injEq] at hfm
      subst hfm
      have hrnil : rest = [] := by
        cases rest with
        | nil => rfl
        | cons y t =>
          exfalso
          cases hft : firstMax t with
          | none =>
            simp only [firstMax, hft] at hrestCase
            exact Option.noConfusion hrestCase
          | some z =>
            simp only [firstMax, hft] at hrestCase
            split at hrestCase <;> simp at hrestCase
      subst hrnil
      exact ⟨List.mem_singleton_self _, by simp, by simp⟩
    | some q =>
      simp only [firstMax, hrestCase] at hfm
      by_cases hlt : x.2 < q.2
      · rw [if_pos hlt] at hfm
        injection hfm with hpq
        subst hpq
        obtain ⟨hqmem, hqmax, hqtie⟩ := ih hrest2 q hrestCase
        refine ⟨List.mem_cons_of_mem x hqmem, ?_, ?_⟩
        · intro r hr
          rcases List.mem_cons.mp hr with rfl | hr2
          · exact Nat.le_of_lt hlt
          · exact hqmax r hr2
        · intro r hr hr2
          rcases List.mem_cons.mp hr with rfl | hr3
          · omega
          · exact hqtie r hr3 hr2
      · rw [if_neg hlt] at hfm
        injection hfm with hpx
        subst hpx
        obtain ⟨hqmem, hqmax, _⟩ := ih hrest2 q hrestCase
        refine ⟨List.mem_cons_self _ rest, ?_, ?_⟩
        · intro r hr
          rcases List.mem_cons.mp hr with rfl | hr2
          · exact Nat.le_refl _
          · exact Nat.le_trans (hqmax r hr2) (Nat.le_of_not_lt hlt)
        · intro r hr _
          rcases List.mem_cons.mp hr with rfl | hr3
          · exact Nat.le_refl _
          · exact Nat.le_of_lt (hx r hr3)

theorem hourlyCounts_pairwise (rows : List Record) :
    (hourlyCounts rows).Pairwise (fun a b => a.1 < b.1) := by
  unfold hourlyCounts
  rw [List.pairwise_map]
  exact List.Pairwise.sublist (List.filter_sublist _) (List.pairwise_lt_range 24)

/-- C7: in the per-request_type statistics, a request_type whose records all
fall in one hour bucket gets a defined mean equal to that bucket count (the
whole per-type record count) and an undefined standard deviation - none, and
in particular not some 0, mirroring the NaN that pandas std with ddof 1
produces on a single point (app.py line 927); and in general the reported
peak hour is a bucket of maximum count whose hour is smallest among the
maxima (idxmax takes the first maximum of the ascending hourly index). -/
theorem reqTypeStats_single_bucket (rows : List Record) (t : String) (h : Nat)
    (hne : rows.filter (fun r => r.request_type = t) ≠ [])
    (hall : ∀ r ∈ rows.filter (fun r => r.request_type = t), r.hourCol = some h) :
    ((reqTypeStats rows t).meanPerHour
        = some (((rows.filter (fun r => r.request_type = t)).length : ℚ))
      ∧ (reqTypeStats rows t).varPerHour = none
      ∧ (reqTypeStats rows t).varPerHour ≠ some 0
      ∧ (reqTypeStats rows t).peakHour = some h)
    ∧ (∀ (rows2 : List Record) (t2 : String) (p : Nat × Nat),
        firstMax (hourlyCounts (rows2.filter (fun r => r.request_type = t2))) = some p →
        p ∈ hourlyCounts (rows2.filter (fun r => r.request_type = t2))
        ∧ (∀ q ∈ hourlyCounts (rows2.filter (fun r => r.request_type = t2)), q.2 ≤ p.2)
        ∧ (∀ q ∈ hourlyCounts (rows2.filter (fun r => r.request_type = t2)),
            q.2 = p.2 → p.1 ≤ q.1)) := by
  have hhc : hourlyCounts (rows.filter (fun r => r.request_type = t))
      = [(h, (rows.filter (fun r => r.request_type = t)).length)] :=
    hourlyCounts_single hne hall
  constructor
  · refine ⟨?_, ?_, ?_, ?_⟩
    · unfold reqTypeStats
      rw [hhc]
      simp [sampleMean]
    · unfold reqTypeStats
      rw [hhc]
      simp [sampleVariance]
    · unfold reqTypeStats
      rw [hhc]
      simp [sampleVariance]
    · unfold reqTypeStats
      rw [hhc]
      simp [firstMax]
  · intro rows2 t2 p hp
    exact firstMax_spec _ (hourlyCounts_pairwise _) p hp

/-- C7 witness: the two demo records of rows7 share hour bucket 5; their
stats row has mean 2 (the bucket count), an undefined deviation and peak
hour 5. -/
theorem reqTypeStats_single_bucket_witness :
    (reqTypeStats rows7 "demo").meanPerHour
        = some (((rows7.filter (fun r => r.request_type = "demo")).length : ℚ))
      ∧ (reqTypeStats rows7 "demo").varPerHour = none
      ∧ (reqTypeStats rows7 "demo").varPerHour ≠ some 0
      ∧ (reqTypeStats rows7 "demo").peakHour = some 5 :=
  (reqTypeStats_single_bucket rows7 "demo" 5 (by decide) (by decide)).1

/-! ### Claim theorems for registration and routing -/

/-- C8 counterexample: the claim orders the checks so that a duplicate
username is reported whenever the username is already present; in the code the
all-fields-required check runs first (app.py line 524), so with the username
admin already present and an empty email the result is the FieldMissing
message, not DuplicateUsername. -/
theorem register_user_order_cex :
    defaultUsers.any (fun a => a.1 = "admin") = true
    ∧ register_user defaultUsers "admin" "" "pw" "pw" = (.fieldMissing, defaultUsers)
    ∧ RegisterOutcome.fieldMissing ≠ RegisterOutcome.duplicateUsername := by
  decide

/-- C8 amended: register_user validates in the source order - FieldMissing if
any of the four inputs is empty, then PasswordMismatch if password and
confirmation differ, then DuplicateUsername if the username is already a key,
then DuplicateEmail if the email is already on any account; otherwise it
creates the new account, persists it and succeeds.  In particular registering
the same username twice fails the second time with DuplicateUsername, and
registering a fresh username with an already-registered email fails with
DuplicateEmail. -/
theorem register_user_checks :
    (∀ (users : List (String × Account)) (u e p c : String),
      ((u = "" ∨ e = "" ∨ p = "" ∨ c = "") →
        register_user users u e p c = (.fieldMissing, users))
      ∧ (u ≠ "" → e ≠ "" → p ≠ "" → c ≠ "" → p ≠ c →
        register_user users u e p c = (.passwordMismatch, users))
      ∧ (u ≠ "" → e ≠ "" → p ≠ "" → c ≠ "" → p = c → (∃ a ∈ users, a.1 = u) →
        register_user users u e p c = (.duplicateUsername, users))
      ∧ (u ≠ "" → e ≠ "" → p ≠ "" → c ≠ "" → p = c → (¬ ∃ a ∈ users, a.1 = u) →
        (∃ a ∈ users, a.2.email = some e) →
        register_user users u e p c = (.duplicateEmail, users))
      ∧ (u ≠ "" → e ≠ "" → p ≠ "" → c ≠ "" → p = c → (¬ ∃ a ∈ users, a.1 = u) →
        (¬ ∃ a ∈ users, a.2.email = some e) →
        register_user users u e p c = (.success, users ++ [(u, ⟨u, u, p, some e⟩)])))
    ∧ (register_user (register_user defaultUsers "alice" "a@x.com" "pw" "pw").2
        "alice" "a@x.com" "pw" "pw").1 = .duplicateUsername
    ∧ (register_user (register_user defaultUsers "alice" "a@x.com" "pw" "pw").2
        "bob" "a@x.com" "pw" "pw").1 = .duplicateEmail := by
  refine ⟨?_, by decide, by decide⟩
  intro users u e p c
  refine ⟨?_, ?_, ?_, ?_, ?_⟩
  · intro h
    simp [register_user, h]
  · intro h1 h2 h3 h4 h5
    simp [register_user, h1, h2, h3, h4, h5]
  · intro h1 h2 h3 h4 h5 h6
    have hb : (users.any (fun a => a.1 = u)) = true := by
      simp only [List.any_eq_true, decide_eq_true_eq]
      exact h6
    simp [register_user, h1, h2, h3, h4, h5, hb]
  · intro h1 h2 h3 h4 h5 h6 h7
    have hb : (users.any (fun a => a.1 = u)) = false := by
      rw [Bool.eq_false_iff]
      intro hc
      exact h6 (by simpa using List.any_eq_true.mp hc)
    have hb2 : (users.any (fun a => a.2.email = some e)) = true := by
      simp only [List.any_eq_true, decide_eq_true_eq]
      exact h7
    simp [register_user, h1, h2, h3, h4, h5, hb, hb2]
  · intro h1 h2 h3 h4 h5 h6 h7
    have hb : (users.any (fun a => a.1 = u)) = false := by
      rw [Bool.eq_false_iff]
      intro hc
      exact h6 (by simpa using List.any_eq_true.mp hc)
    have hb2 : (users.any (fun a => a.2.email = some e)) = false := by
      rw [Bool.eq_false_iff]
      intro hc
      exact h7 (by simpa using List.any_eq_true.mp hc)
    simp [register_user, h1, h2, h3, h4, h5, hb, hb2]

/-- C9 counterexample: an unauthenticated session navigating to /dashboard
observes the dashboard content - display_page performs no authentication
check (app.py lines 477-480), refuting that only authenticated sessions can
observe it. -/
theorem display_page_no_auth_gate_cex :
    renderForSession false "/dashboard" = PageContent.dashboardPage := by
  decide

/-- C9 amended: navigating to /dashboard yields the dashboard content for
every session, authenticated or not (the page callback reads only the URL);
authentication only controls the redirect of the login callback, which sends
the browser to /dashboard exactly when the click carries a username present in
the store with a matching stored password. -/
theorem display_page_routing :
    (∀ auth : Bool, renderForSession auth "/dashboard" = PageContent.dashboardPage)
    ∧ (∀ (users : List (String × Account)) (n : Nat) (u p : String),
        login users n u p = some "/dashboard" ↔
          0 < n ∧ ∃ a, List.lookup u users = some a ∧ a.password = p) := by
  constructor
  · intro auth
    rfl
  · intro users n u p
    unfold login
    by_cases hn : 0 < n
    · rw [if_pos hn]
      cases hl : List.lookup u users with
      | none => simp [hn]
      | some a =>
        by_cases hp : a.password = p
        · simp [hp, hn]
        · simp [hp, hn]
    · rw [if_neg hn]
      simp [hn]

end WebLog
